import Mathlib

/-!
Verification development for the infernet-monorepo sources.

Shallow embedding conventions:
* Python `str` is modelled as Lean `String` (a sequence of characters);
  where character-level reasoning is needed (comma-joining of container
  ids) we work on `List Char` and convert with `String.toList`/`String.mk`.
* Python unbounded `int` is modelled as `Int` (as `Nat` where the code
  only ever sees non-negative values and no subtraction occurs).
* Python code that raises is modelled with `Except`/`Option`; a function
  that "falls through" without raising is modelled by its normal result.
* Methods that could mutate their object are modelled in state-passing
  style, returning the (possibly updated) object next to their result.
-/

namespace CssMux

/-! ### `infernet_ml/utils/css_mux.py` -/

/-- `Provider` enum from `css_mux.py`: the three supported CSS providers. -/
inductive Provider where
  | OPENAI
  | PERPLEXITYAI
  | GOOSEAI
deriving DecidableEq, Repr

/-- `ConvoMessage`: one message of a conversation (`role`, `content`). -/
structure ConvoMessage where
  role : String
  content : String
deriving DecidableEq, Repr

/-- The `params` union of `CSSRequest`: either `CSSCompletionParams`
(a list of conversation messages) or `CSSEmbeddingParams` (an input string). -/
inductive Params where
  | completion (messages : List ConvoMessage)
  | embedding (input : String)
deriving DecidableEq, Repr

/-- Exceptions raised by the css_mux module
(`InfernetMLException`, `APIKeyMissingException`, `RetryableException`). -/
inductive CssError where
  | infernetML (msg : String)
  | apiKeyMissing (msg : String)
  | retryable (msg : String)
  | keyError (msg : String)
deriving DecidableEq, Repr

/-- Values that may appear in a request body dictionary. -/
inductive BodyVal where
  | s (v : String)
  | msgs (v : List ConvoMessage)
deriving DecidableEq, Repr

/-- `CSSRequest`: provider, endpoint, model name, api keys and params.
`api_keys : Dict[Provider, Optional[str]]` is an association list whose
stored values may themselves be `None`. -/
structure CSSRequest where
  provider : Provider
  endpoint : String
  model : String
  api_keys : List (Provider × Option String)
  params : Params
deriving DecidableEq, Repr

/-- Python `dict.get k`: `none` when the key is absent; otherwise the
stored value (which, for `api_keys`, is itself an `Option`, flattened
exactly as Python's `d.get(k) is None` test sees it). -/
def apiKeysGet (ks : List (Provider × Option String)) (p : Provider) :
    Option String :=
  match ks.lookup p with
  | none => none
  | some v => v

/-- `open_ai_helper`: base url and json body for the OpenAI API.
Both parameter shapes are accepted; the final `case _` of the Python
`match` is unreachable because `params` is exactly the two-case union. -/
def open_ai_helper (req : CSSRequest) :
    Except CssError (String × List (String × BodyVal)) :=
  match req.params with
  | .completion msgs =>
      .ok ("https://api.openai.com/v1/",
        [("model", .s req.model), ("messages", .msgs msgs)])
  | .embedding input =>
      .ok ("https://api.openai.com/v1/",
        [("model", .s req.model), ("input", .s input)])

/-- `ppl_ai_helper`: base url and json body for the Perplexity AI API.
Only completion params are accepted; anything else raises
`InfernetMLException`. -/
def ppl_ai_helper (req : CSSRequest) :
    Except CssError (String × List (String × BodyVal)) :=
  match req.params with
  | .completion msgs =>
      .ok ("https://api.perplexity.ai/",
        [("model", .s req.model), ("messages", .msgs msgs)])
  | _ => .error (.infernetML "Unsupported request")

/-- `goose_ai_helper`: base url and json body for the Goose AI API.
Accepts exactly one completion message; a different message count or
embedding params raise `InfernetMLException`. -/
def goose_ai_helper (req : CSSRequest) :
    Except CssError (String × List (String × BodyVal)) :=
  match req.params with
  | .completion msgs =>
      if msgs.length ≠ 1 then
        .error (.infernetML "GOOSE AI API only accepts one message from role user!")
      else
        match msgs with
        | [m] =>
            .ok ("https://api.goose.ai/v1/engines/" ++ req.model ++ "/",
              [("prompt", .s m.content)])
        | _ => .error (.infernetML "GOOSE AI API only accepts one message from role user!")
  | _ => .error (.infernetML "Unsupported request")

/-- The `endpoints` sub-table of the `PROVIDERS` table:
supported endpoint name ↦ `real_endpoint`. -/
def endpointsOf : Provider → List (String × String)
  | .OPENAI => [("completions", "chat/completions"), ("embeddings", "embeddings")]
  | .PERPLEXITYAI => [("completions", "chat/completions")]
  | .GOOSEAI => [("completions", "completions")]

/-- The `input_func` field of the `PROVIDERS` table. -/
def inputFunc (p : Provider) :
    CSSRequest → Except CssError (String × List (String × BodyVal)) :=
  match p with
  | .OPENAI => open_ai_helper
  | .PERPLEXITYAI => ppl_ai_helper
  | .GOOSEAI => goose_ai_helper

/-- Membership of `req.provider` in the `PROVIDERS` table keys. -/
def providerSupported (p : Provider) : Bool :=
  match p with
  | .OPENAI => true
  | .PERPLEXITYAI => true
  | .GOOSEAI => true

/-- `validate`: checks provider support, api-key presence
(`api_keys.get(provider) is None`), and endpoint support. -/
def validate (req : CSSRequest) : Except CssError Unit :=
  if ¬ providerSupported req.provider then
    .error (.infernetML "Provider not supported!")
  else
    match apiKeysGet req.api_keys req.provider with
    | none => .error (.apiKeyMissing "API key not specified!")
    | some _ =>
        match (endpointsOf req.provider).lookup req.endpoint with
        | none => .error (.infernetML "Endpoint not supported for your provider!")
        | some _ => .ok ()

/-- Python `{**a, **b}` dictionary merge: keys of `a` in order (values
overridden by `b` where present), then keys of `b` not in `a`. -/
def dictMerge (a b : List (String × BodyVal)) : List (String × BodyVal) :=
  (a.map fun kv =>
    match b.lookup kv.1 with
    | some v => (kv.1, v)
    | none => kv) ++
  b.filter fun kv => (a.lookup kv.1).isNone

/-- `get_request_configuration`: api-key subscript (`KeyError` when the
provider is absent from the dict), `real_endpoint` table lookup, then the
provider's `input_func`; on success returns `(url, headers, body)` with
the extra args merged into the body. -/
def get_request_configuration (req : CSSRequest)
    (extra_args : List (String × BodyVal)) :
    Except CssError (String × List (String × String) × List (String × BodyVal)) :=
  match req.api_keys.lookup req.provider with
  | none => .error (.keyError "provider")
  | some apiKey =>
      match (endpointsOf req.provider).lookup req.endpoint with
      | none => .error (.keyError "endpoint")
      | some realEndpoint =>
          match inputFunc req.provider req with
          | .error e => .error e
          | .ok (baseUrl, procInput) =>
              .ok (baseUrl ++ realEndpoint,
                [("Content-Type", "application/json"),
                 ("Authorization", "Bearer " ++ (apiKey.getD "None"))],
                dictMerge procInput extra_args)

/-- Outcome of `css_mux`'s status-code handling: a raised exception, or
falling through to `result.json()` / post-processing. -/
inductive MuxOutcome where
  | raisedRetryable (msg : String)
  | raisedInfernetML (msg : String)
  | returnedPostProcessed
deriving DecidableEq, Repr

/-- The status-code handling of `css_mux` (`css_mux.py` lines 275-290),
as a function of the provider and the HTTP response's status and text.
The `match` is over `req.provider`; its `case _` branch (raising
`InfernetMLException`) is unreachable because every `Provider` value has
an explicit case.  When no branch raises, execution falls through to
`result.json()` and the provider's `post_process`. -/
def cssMuxStatusHandling (provider : Provider) (status : Nat) (text : String) :
    MuxOutcome :=
  if status ≠ 200 then
    match provider with
    | .OPENAI | .GOOSEAI =>
        if status = 429 ∨ status = 500 then .raisedRetryable text
        else .returnedPostProcessed
    | .PERPLEXITYAI =>
        if status = 429 then .raisedRetryable text
        else .returnedPostProcessed
  else .returnedPostProcessed

/-- Whether the provider's input function accepts the request's params
(derived below from the three helpers, not assumed). -/
def inputAccepts : Provider → Params → Bool
  | .OPENAI, _ => true
  | .PERPLEXITYAI, .completion _ => true
  | .PERPLEXITYAI, .embedding _ => false
  | .GOOSEAI, .completion msgs => msgs.length = 1
  | .GOOSEAI, .embedding _ => false

/-- `Except.isOk` as a Bool. -/
def isOkB {ε α : Type} : Except ε α → Bool
  | .ok _ => true
  | .error _ => false

end CssMux

namespace ChainUtils

/-! ### `infernet_client/chain_utils.py` — the `Subscription` class -/

/-- Comma-joining of container ids, `",".join(containers)`, at the
character level (`[]` for the empty list, no trailing separator). -/
def joinComma : List (List Char) → List Char
  | [] => []
  | [c] => c
  | c :: c2 :: rest => c ++ ',' :: joinComma (c2 :: rest)

/-- Model of the external pipeline
`Web3.keccak(encode(["string"], [joined])).hex()` applied to the joined
container string: an external deterministic hash of the joined string.
It is modelled as an ideal collision-free (injective) function of its
input; every theorem below uses only that it is a function of the joined
string, plus this ideal-hash injectivity. -/
def keccakHexModel (s : List Char) : List Char :=
  '0' :: 'x' :: s

/-- `self._containers_hash`: hash of the comma-joined container ids
(`chain_utils.py` lines 73-75). -/
def containersHash (containers : List String) : String :=
  String.mk (keccakHexModel (joinComma (containers.map String.toList)))

/-- The `Subscription` object: the fields stored by `__init__`. -/
structure Subscription where
  owner : String
  active_at : Int
  period : Int
  frequency : Int
  redundancy : Int
  containers_hash : String
  lazy : Bool
  prover : String
  payment_amount : Int
  payment_token : String
  wallet : String
deriving DecidableEq, Repr

/-- `Subscription.__init__`: stores each argument verbatim (no
validation), except that the container list is replaced by its hash. -/
def mkSubscription (owner : String) (active_at period frequency redundancy : Int)
    (containers : List String) (lazy : Bool) (prover : String)
    (payment_amount : Int) (payment_token wallet : String) : Subscription :=
  { owner := owner
    active_at := active_at
    period := period
    frequency := frequency
    redundancy := redundancy
    containers_hash := containersHash containers
    lazy := lazy
    prover := prover
    payment_amount := payment_amount
    payment_token := payment_token
    wallet := wallet }

/-- A Python dictionary value appearing in `serialized`. -/
inductive PyVal where
  | str (v : String)
  | int (v : Int)
  | bool (v : Bool)
deriving DecidableEq, Repr

/-- The `serialized` property, in state-passing style: the dictionary it
builds, next to the object after the call (the body only reads fields,
so the object is returned unchanged). -/
def serializedM (s : Subscription) : List (String × PyVal) × Subscription :=
  ([("owner", .str s.owner),
    ("active_at", .int s.active_at),
    ("period", .int s.period),
    ("frequency", .int s.frequency),
    ("redundancy", .int s.redundancy),
    ("containers", .str s.containers_hash),
    ("lazy", .bool s.lazy),
    ("prover", .str s.prover),
    ("payment_amount", .int s.payment_amount),
    ("payment_token", .str s.payment_token),
    ("wallet", .str s.wallet)], s)

/-- The EIP-712 message assembled by
`get_delegate_subscription_typed_data`: domain constants, the
nonce/expiry pair and the subscription fields. -/
structure DelegateTypedData where
  domainName : String
  domainVersion : String
  chainId : Int
  verifyingContract : String
  nonce : Int
  expiry : Int
  subOwner : String
  subActiveAt : Int
  subPeriod : Int
  subFrequency : Int
  subRedundancy : Int
  subContainerId : String
  subLazy : Bool
  subProver : String
  subPaymentAmount : Int
  subPaymentToken : String
  subWallet : String
deriving DecidableEq, Repr

/-- `get_delegate_subscription_typed_data`, in state-passing style: the
typed message it builds (`encode_typed_data` of the full message is an
external pure encoder, modelled by the message itself), next to the
object after the call — unchanged, since the body only reads fields. -/
def getDelegateSubscriptionTypedDataM (s : Subscription)
    (nonce expiry chain_id : Int) (verifying_contract : String) :
    DelegateTypedData × Subscription :=
  ({ domainName := "InfernetCoordinator"
     domainVersion := "1"
     chainId := chain_id
     verifyingContract := verifying_contract
     nonce := nonce
     expiry := expiry
     subOwner := s.owner
     subActiveAt := s.active_at
     subPeriod := s.period
     subFrequency := s.frequency
     subRedundancy := s.redundancy
     subContainerId := s.containers_hash
     subLazy := s.lazy
     subProver := s.prover
     subPaymentAmount := s.payment_amount
     subPaymentToken := s.payment_token
     subWallet := s.wallet }, s)

/-- One observer call on a `Subscription`: either `serialized` or
`get_delegate_subscription_typed_data` with its arguments. -/
inductive SubOp where
  | serialize
  | typedData (nonce expiry chain_id : Int) (verifying_contract : String)
deriving DecidableEq, Repr

/-- Apply one observer call, keeping only the resulting object state. -/
def applySubOp (s : Subscription) : SubOp → Subscription
  | .serialize => (serializedM s).2
  | .typedData n e c v => (getDelegateSubscriptionTypedDataM s n e c v).2

/-- Run an arbitrary sequence of observer calls. -/
def runSubOps (ops : List SubOp) (s : Subscription) : Subscription :=
  ops.foldl applySubOp s

end ChainUtils

namespace FileManager

/-! ### `ritual_arweave/file_manager.py` -/

/-- Metadata of the local file at `file_path`, when it exists
(`os.path.exists`): its byte size (`os.path.getsize`) and the hex digest
computed by `get_sha256_digest`. -/
structure LocalFile where
  size : Int
  sha256 : String
deriving DecidableEq, Repr

/-- The facts `file_exists` obtains from the GraphQL gateway and the
filesystem: the transaction's data size, its tags (as the dictionary
built by `get_tags_dict`), and the local file (none when
`os.path.exists` is false). -/
structure FileEnv where
  txFileSize : Int
  txTags : List (String × String)
  localFile : Option LocalFile
deriving DecidableEq, Repr

/-- The externally observable operations `file_exists` performs, in
order, after parsing the GraphQL response. -/
inductive FsOp where
  | statExists
  | getSize
  | computeDigest
deriving DecidableEq, Repr

/-- `FileManager.file_exists` (`file_manager.py` lines 183-209), with
the I/O facts passed in: returns the boolean result next to the trace of
filesystem operations performed.  Each failing check returns `False`
at once, so the later operations are skipped. -/
def file_exists (env : FileEnv) : Bool × List FsOp :=
  match env.localFile with
  | none => (false, [.statExists])
  | some f =>
      if env.txFileSize = f.size then
        (decide (env.txTags.lookup "File-SHA256" = some f.sha256),
         [.statExists, .getSize, .computeDigest])
      else
        (false, [.statExists, .getSize])

/-- Result of the fallback path of `FileManager.download`: the bytes
written to `pathname`, how many times the `tx_data` endpoint was hit,
and the returned path (`os.path.abspath(pathname)`, modelled as a pure
function of the path). -/
structure DownloadResult where
  written : List Nat
  txDataFetches : Nat
  returnedPath : String
deriving DecidableEq, Repr

/-- Model of `os.path.abspath`: a pure function of the path string. -/
def abspath (p : String) : String := p

/-- The chunk loop of `FileManager.download` (lines 90-101): while
`loaded_bytes < size`, fetch and b64-decode the chunk at
`startOffset + loaded_bytes`, append it to the file and add its length
to `loaded_bytes`.  `chunks o` is the decoded chunk the peer serves at
absolute offset `o`.  Fuel bounds the iteration count; `none` models a
loop that did not finish within the fuel. -/
def chunkLoop (chunks : Int → List Nat) (startOffset : Int) (size : Nat) :
    Nat → Nat → List Nat → Option (List Nat × Nat)
  | 0, loaded, acc =>
      if loaded < size then none else some (acc, loaded)
  | fuel + 1, loaded, acc =>
      if loaded < size then
        let chunkDataDec := chunks (startOffset + (loaded : Int))
        chunkLoop chunks startOffset size fuel
          (loaded + chunkDataDec.length) (acc ++ chunkDataDec)
      else some (acc, loaded)

/-- The fallback path of `FileManager.download` (lines 78-103), entered
after the direct `peer.data` download raised: reads
`{size, offset} = peer.tx_offset(txid)`, sets
`startOffset = offset - size + 1`, then either a single `tx_data` fetch
(when `size < MAX_NODE_BYTES`) or the chunk loop. -/
def downloadFallback (maxNodeBytes : Nat) (txOffset : Int) (size : Nat)
    (txData : List Nat) (chunks : Int → List Nat) (pathname : String) :
    Option DownloadResult :=
  let startOffset : Int := txOffset - (size : Int) + 1
  if size < maxNodeBytes then
    some { written := txData, txDataFetches := 1, returnedPath := abspath pathname }
  else
    match chunkLoop chunks startOffset size size 0 [] with
    | none => none
    | some (acc, _) =>
        some { written := acc, txDataFetches := 0, returnedPath := abspath pathname }

end FileManager

namespace ConfigCreator

/-! ### `test_library/config_creator.py` -/

/-- `ServiceConfig`: name, image id, environment variables, port. -/
structure ServiceConfig where
  name : String
  image_id : String
  env_vars : List (String × String)
  port : Int
deriving DecidableEq, Repr

/-- One entry of the `containers` list appended by `get_config`. -/
structure Container where
  id : String
  image : String
  env : List (String × String)
  port : Int
  allowed_delegate_addresses : List String
  allowed_addresses : List String
  allowed_ips : List String
  command : String
  external : Bool
deriving DecidableEq, Repr

/-- The `wallet` sub-dictionary of `base_config["chain"]`.
`payment_address` is absent initially and added by `get_config`. -/
structure WalletCfg where
  max_gas_limit : Int
  private_key : String
  payment_address : Option String
  allowed_sim_errors : List String
deriving DecidableEq, Repr

/-- The `chain` sub-dictionary of `base_config`. -/
structure ChainCfg where
  enabled : Bool
  trail_head_blocks : Int
  rpc_url : String
  coordinator_address : String
  wallet : WalletCfg
deriving DecidableEq, Repr

/-- The parts of the module-level `base_config` dictionary that
`get_config` mutates through its shallow copy: `cfg = base_config.copy()`
copies only the top level, so `cfg["containers"]` and `cfg["chain"]` are
the very objects stored in `base_config`. -/
structure SharedState where
  containers : List Container
  chain : ChainCfg
deriving DecidableEq, Repr

/-- The dictionary returned by `get_config`: the static top-level
entries of `base_config` plus the (shared) containers list and chain
configuration. -/
structure InfernetConfig where
  log_path : String
  server_port : Int
  startup_wait : Int
  forward_stats : Bool
  containers : List Container
  chain : ChainCfg
deriving DecidableEq, Repr

/-- The initial value of the module-level `base_config`
(`config_creator.py` lines 14-33), restricted to the shared mutable
parts. -/
def baseConfigInit : SharedState :=
  { containers := []
    chain :=
      { enabled := true
        trail_head_blocks := 0
        rpc_url := ""
        coordinator_address := ""
        wallet :=
          { max_gas_limit := 4000000
            private_key := ""
            payment_address := none
            allowed_sim_errors := ["reverting"] } } }

/-- The container entry `get_config` appends for one service
(lines 133-145). -/
def mkContainer (s : ServiceConfig) : Container :=
  { id := s.name
    image := s.image_id
    env := s.env_vars
    port := s.port
    allowed_delegate_addresses := []
    allowed_addresses := []
    allowed_ips := []
    command := "--bind=0.0.0.0:3000 --workers=2"
    external := true }

/-- `get_config` (lines 109-150), with the shared mutable state made
explicit: `cfg = base_config.copy()` is a shallow copy, so the `append`s
on `cfg["containers"]` extend the list object stored in `base_config`,
and the assignments under `cfg["chain"]` update the dictionary object
stored in `base_config`.  Returns the built config next to the
`base_config` state after the call. -/
def get_config (st : SharedState) (services : List ServiceConfig)
    (private_key coordinator_address payment_address rpc_url : String) :
    InfernetConfig × SharedState :=
  let newContainers := st.containers ++ services.map mkContainer
  let newChain : ChainCfg :=
    { st.chain with
      coordinator_address := coordinator_address
      rpc_url := rpc_url
      wallet :=
        { st.chain.wallet with
          private_key := private_key
          payment_address := some payment_address } }
  ({ log_path := "infernet_node.log"
     server_port := 4000
     startup_wait := 1
     forward_stats := true
     containers := newContainers
     chain := newChain },
   { containers := newContainers, chain := newChain })

/-- A sample service for the successive-call scenario. -/
def sampleService : ServiceConfig :=
  { name := "svc", image_id := "img", env_vars := [], port := 3000 }

/-- First `get_config` call on the freshly imported module state. -/
def firstCall : InfernetConfig × SharedState :=
  get_config baseConfigInit [sampleService] "pk" "coord" "pay" "rpc"

/-- Second `get_config` call with the same arguments, on the
`base_config` state the first call left behind. -/
def secondCall : InfernetConfig × SharedState :=
  get_config firstCall.2 [sampleService] "pk" "coord" "pay" "rpc"

end ConfigCreator

namespace Tracker

/-!
### Subscription tracker / retry scheduler

The node's `SubscriptionTracker`, `RetryPolicy` and `NodeLoop` are not
among the repository sources here; only their integration tests are
(`tests/infernet_node/test_failing_transaction.py`).  The definitions in
this namespace are therefore modelled from the spec, §4.1-§4.2 and §8.
-/

/-- `AttemptState.status`: `PENDING`, `IN_FLIGHT`, `FULFILLED`,
`EXHAUSTED` (spec §3, AttemptState). -/
inductive Status where
  | PENDING
  | IN_FLIGHT
  | FULFILLED
  | EXHAUSTED
deriving DecidableEq, Repr

/-- Modelled from the spec: node-local `AttemptState` for one
(subscription, interval) — the attempt count and the lifecycle status
(`last_attempt_at` is irrelevant to the attempt-count claims and
omitted). -/
structure AttemptState where
  attempts : Nat
  status : Status
deriving DecidableEq, Repr

/-- Modelled from the spec: an attempt outcome —
`Success`, `RetryableFailure(reason)` or `FatalFailure(reason)`. -/
inductive Outcome where
  | success
  | retryableFailure (reason : String)
  | fatalFailure (reason : String)
deriving DecidableEq, Repr

/-- Modelled from the spec: how a subscription identifies itself in
logs — the on-chain id for directly created subscriptions, the
delegation nonce for delegated (off-chain-signed) ones (spec §6, §9). -/
inductive SubKind where
  | direct (subId : Nat)
  | delegated (nonce : Nat)
deriving DecidableEq, Repr

/-- The identifier that appears in the give-up log line. -/
def identifierOf : SubKind → Nat
  | .direct subId => subId
  | .delegated nonce => nonce

/-- Modelled from the spec (§4.2, §6): the permanent give-up log line —
the fixed message followed by the subscription identifier. -/
def giveUpLine (kind : SubKind) : String :=
  "Subscription has exceeded the maximum number of attempts: " ++
    toString (identifierOf kind)

/-- Modelled from the spec (§4.1 `record_attempt_start`): transition to
`IN_FLIGHT` and increment `attempts`; fails with
`InvalidTransitionError` when already `IN_FLIGHT`. -/
def recordAttemptStart (st : AttemptState) : Except String AttemptState :=
  if st.status = .IN_FLIGHT then
    .error "InvalidTransitionError"
  else
    .ok { attempts := st.attempts + 1, status := .IN_FLIGHT }

/-- Modelled from the spec (§4.1 `record_attempt_result`, §4.2): on
`Success` → `FULFILLED`; on `RetryableFailure` → back to `PENDING` when
`attempts < max_attempts`, else `EXHAUSTED` with the give-up line
logged; on `FatalFailure` → `EXHAUSTED` immediately.  Returns the new
state next to the log lines emitted. -/
def recordAttemptResult (maxAttempts : Nat) (kind : SubKind)
    (st : AttemptState) (outcome : Outcome) : AttemptState × List String :=
  match outcome with
  | .success => ({ st with status := .FULFILLED }, [])
  | .retryableFailure _ =>
      if st.attempts < maxAttempts then
        ({ st with status := .PENDING }, [])
      else
        ({ st with status := .EXHAUSTED }, [giveUpLine kind])
  | .fatalFailure _ => ({ st with status := .EXHAUSTED }, [])

/-- Modelled from the spec (§4.5 NodeLoop, restricted to one
(subscription, interval) and a JobRunner that always returns
`RetryableFailure`): while the attempt state is `PENDING`,
`record_attempt_start` then `record_attempt_result` with the failure.
Fuel bounds the number of cycles. -/
def runRetryLoop (maxAttempts : Nat) (kind : SubKind) :
    Nat → AttemptState → List String → AttemptState × List String
  | 0, st, logs => (st, logs)
  | fuel + 1, st, logs =>
      if st.status = .PENDING then
        match recordAttemptStart st with
        | .error _ => (st, logs)
        | .ok st1 =>
            let (st2, emitted) :=
              recordAttemptResult maxAttempts kind st1 (.retryableFailure "job failed")
            runRetryLoop maxAttempts kind fuel st2 (logs ++ emitted)
      else (st, logs)

/-- The initial attempt state when an interval first becomes due. -/
def initialAttemptState : AttemptState :=
  { attempts := 0, status := .PENDING }

end Tracker

/-!
## Helper lemmas
-/

namespace Tracker

/-- A state that is not `PENDING` is left untouched by the retry loop. -/
theorem runRetryLoop_terminal (N : Nat) (kind : SubKind) (st : AttemptState)
    (h : st.status ≠ .PENDING) :
    ∀ (fuel : Nat) (logs : List String),
      runRetryLoop N kind fuel st logs = (st, logs) := by
  intro fuel logs
  cases fuel with
  | zero => rfl
  | succ n => simp [runRetryLoop, h]

/-- From a `PENDING` state with `k < N` attempts already made and
enough fuel, the always-retryable loop ends `EXHAUSTED` with exactly
`N` attempts and exactly one give-up line appended. -/
theorem runRetryLoop_pending_run (N : Nat) (kind : SubKind) :
    ∀ (fuel k : Nat) (logs : List String), k < N → N ≤ k + fuel →
      runRetryLoop N kind fuel { attempts := k, status := .PENDING } logs =
        ({ attempts := N, status := .EXHAUSTED }, logs ++ [giveUpLine kind]) := by
  intro fuel
  induction fuel with
  | zero => intro k logs hk hfuel; omega
  | succ n ih =>
      intro k logs hk hfuel
      by_cases hlt : k + 1 < N
      · have h1 : runRetryLoop N kind (n + 1) { attempts := k, status := .PENDING } logs =
            runRetryLoop N kind n { attempts := k + 1, status := .PENDING } logs := by
          simp [runRetryLoop, recordAttemptStart, recordAttemptResult, hlt]
        rw [h1]
        exact ih (k + 1) logs hlt (by omega)
      · have hkN : k + 1 = N := by omega
        have h1 : runRetryLoop N kind (n + 1) { attempts := k, status := .PENDING } logs =
            runRetryLoop N kind n { attempts := k + 1, status := .EXHAUSTED }
              (logs ++ [giveUpLine kind]) := by
          simp [runRetryLoop, recordAttemptStart, recordAttemptResult, hlt]
        rw [h1, runRetryLoop_terminal N kind _ (by simp), hkN]

end Tracker

namespace ChainUtils

/-- Splitting a character list at the first comma is unambiguous when
the parts left of the comma are comma-free. -/
theorem append_comma_cancel :
    ∀ (a : List Char) (b l1 l2 : List Char), ',' ∉ a → ',' ∉ b →
      a ++ ',' :: l1 = b ++ ',' :: l2 → a = b ∧ l1 = l2 := by
  intro a
  induction a with
  | nil =>
      intro b l1 l2 _ hb h
      cases b with
      | nil => simpa using h
      | cons c b2 =>
          simp only [List.nil_append, List.cons_append, List.cons.injEq] at h
          exact absurd (h.1 ▸ List.mem_cons_self c b2) hb
  | cons c a2 ih =>
      intro b l1 l2 ha hb h
      cases b with
      | nil =>
          simp only [List.cons_append, List.nil_append, List.cons.injEq] at h
          exact absurd (h.1 ▸ List.mem_cons_self c a2) ha
      | cons d b2 =>
          simp only [List.cons_append, List.cons.injEq] at h
          obtain ⟨hcd, hrest⟩ := h
          have ha2 : ',' ∉ a2 := fun hm => ha (List.mem_cons_of_mem c hm)
          have hb2 : ',' ∉ b2 := fun hm => hb (List.mem_cons_of_mem d hm)
          obtain ⟨hab, hl⟩ := ih b2 l1 l2 ha2 hb2 hrest
          exact ⟨by rw [hcd, hab], hl⟩

/-- A comma-free character list never equals a list with a comma spliced
into it. -/
theorem comma_free_ne_append (a b l : List Char) (ha : ',' ∉ a) :
    a ≠ b ++ ',' :: l := by
  intro h
  exact ha (h ▸ List.mem_append_right b (List.mem_cons_self ',' l))

/-- `joinComma` is injective on nonempty lists of comma-free parts. -/
theorem joinComma_injOn :
    ∀ (l1 l2 : List (List Char)), l1 ≠ [] → l2 ≠ [] →
      (∀ c ∈ l1, ',' ∉ c) → (∀ c ∈ l2, ',' ∉ c) →
      joinComma l1 = joinComma l2 → l1 = l2 := by
  intro l1
  induction l1 with
  | nil => intro l2 h1 _ _ _ _; exact absurd rfl h1
  | cons a t1 ih =>
      intro l2 _ h2 hc1 hc2 hj
      cases l2 with
      | nil => exact absurd rfl h2
      | cons b t2 =>
          have haf : ',' ∉ a := hc1 a (List.mem_cons_self a t1)
          have hbf : ',' ∉ b := hc2 b (List.mem_cons_self b t2)
          cases t1 with
          | nil =>
              cases t2 with
              | nil => simpa [joinComma] using hj
              | cons b2 r2 =>
                  rw [show joinComma [a] = a from rfl,
                    show joinComma (b :: b2 :: r2) = b ++ ',' :: joinComma (b2 :: r2)
                      from rfl] at hj
                  exact absurd hj (comma_free_ne_append a b _ haf)
          | cons a2 r1 =>
              cases t2 with
              | nil =>
                  rw [show joinComma (a :: a2 :: r1) = a ++ ',' :: joinComma (a2 :: r1)
                      from rfl, show joinComma [b] = b from rfl] at hj
                  exact absurd hj.symm (comma_free_ne_append b a _ hbf)
              | cons b2 r2 =>
                  rw [show joinComma (a :: a2 :: r1) = a ++ ',' :: joinComma (a2 :: r1)
                      from rfl,
                    show joinComma (b :: b2 :: r2) = b ++ ',' :: joinComma (b2 :: r2)
                      from rfl] at hj
                  obtain ⟨hab, hrest⟩ :=
                    append_comma_cancel a b _ _ haf hbf hj
                  have ht : a2 :: r1 = b2 :: r2 :=
                    ih (b2 :: r2) (by simp) (by simp)
                      (fun c hc => hc1 c (List.mem_cons_of_mem a hc))
                      (fun c hc => hc2 c (List.mem_cons_of_mem b hc)) hrest
                  rw [hab, ht]

/-- `String.toList` is injective. -/
theorem string_toList_injective : Function.Injective String.toList := by
  intro s t h
  cases s; cases t
  exact congrArg String.mk (by simpa [String.toList] using h)

/-- `containersHash` is injective on nonempty container lists whose ids
are comma-free (under the ideal-hash model of keccak). -/
theorem containersHash_injOn (cs ds : List String)
    (hcs : cs ≠ []) (hds : ds ≠ [])
    (hc : ∀ c ∈ cs, ',' ∉ c.toList) (hd : ∀ c ∈ ds, ',' ∉ c.toList)
    (h : containersHash cs = containersHash ds) : cs = ds := by
  have h1 : keccakHexModel (joinComma (cs.map String.toList)) =
      keccakHexModel (joinComma (ds.map String.toList)) := by
    have := congrArg String.toList h
    simpa [containersHash, String.toList] using this
  have h2 : joinComma (cs.map String.toList) = joinComma (ds.map String.toList) := by
    simpa [keccakHexModel] using h1
  have h3 : cs.map String.toList = ds.map String.toList :=
    joinComma_injOn _ _ (by simpa using hcs) (by simpa using hds)
      (by intro c hcmem
          obtain ⟨s, hs, hceq⟩ := List.mem_map.mp hcmem
          exact hceq ▸ hc s hs)
      (by intro c hcmem
          obtain ⟨s, hs, hceq⟩ := List.mem_map.mp hcmem
          exact hceq ▸ hd s hs)
      h2
  exact List.map_injective_iff.mpr string_toList_injective h3

end ChainUtils

namespace CssMux

/-- Whether a provider's `input_func` succeeds is decided exactly by
`inputAccepts` on the request's params. -/
theorem cssInputFunc_isOk (p : Provider) (req : CSSRequest) :
    isOkB (inputFunc p req) = inputAccepts p req.params := by
  rcases hp : req.params with msgs | inp <;> cases p <;>
    simp only [inputFunc, open_ai_helper, ppl_ai_helper, goose_ai_helper,
      inputAccepts, isOkB, hp]
  by_cases hlen : msgs.length = 1
  · obtain ⟨m, rfl⟩ := List.length_eq_one.mp hlen
    simp [isOkB]
  · simp [hlen, isOkB]

end CssMux

namespace FileManager

/-- The chunk loop terminates within `size - loaded` iterations when
every served chunk is nonempty, ending with `loaded ≥ size` and having
appended exactly `final loaded - initial loaded` bytes. -/
theorem chunkLoop_spec (chunks : Int → List Nat) (startOffset : Int)
    (size : Nat) (h : ∀ o, chunks o ≠ []) :
    ∀ (fuel loaded : Nat) (acc : List Nat), size ≤ loaded + fuel →
      ∃ p : List Nat × Nat,
        chunkLoop chunks startOffset size fuel loaded acc = some p ∧
        size ≤ p.2 ∧ p.1.length + loaded = acc.length + p.2 := by
  intro fuel
  induction fuel with
  | zero =>
      intro loaded acc hle
      have hnlt : ¬ loaded < size := by omega
      exact ⟨(acc, loaded), by simp [chunkLoop, hnlt], by omega, by simp⟩
  | succ n ih =>
      intro loaded acc hle
      by_cases hlt : loaded < size
      · have hchunk : 1 ≤ (chunks (startOffset + (loaded : Int))).length :=
          List.length_pos.mpr (h _)
        obtain ⟨p, hp, hps, hplen⟩ :=
          ih (loaded + (chunks (startOffset + (loaded : Int))).length)
            (acc ++ chunks (startOffset + (loaded : Int))) (by omega)
        refine ⟨p, ?_, hps, ?_⟩
        · rw [chunkLoop, if_pos hlt]
          exact hp
        · rw [List.length_append] at hplen
          omega
      · exact ⟨(acc, loaded), by simp [chunkLoop, hlt], by omega, by simp⟩

end FileManager

/-!
## Claim theorems
-/

/-- C1: on permanent give-up for a subscription with `max_attempts = N`
whose every attempt fails retryably, the node reaches `EXHAUSTED` after
exactly `N` attempts and emits exactly one
"Subscription has exceeded the maximum number of attempts" log line,
followed by the subscription identifier — the on-chain id for directly
created subscriptions, the delegation nonce for delegated ones. -/
theorem c1_retry_then_give_up (N fuel : Nat) (kind : Tracker.SubKind)
    (hN : 1 ≤ N) (hfuel : N ≤ fuel) :
    Tracker.runRetryLoop N kind fuel Tracker.initialAttemptState [] =
      ({ attempts := N, status := .EXHAUSTED },
       ["Subscription has exceeded the maximum number of attempts: " ++
         toString (Tracker.identifierOf kind)]) := by
  have h := Tracker.runRetryLoop_pending_run N kind fuel 0 [] hN (by omega)
  simpa [Tracker.initialAttemptState, Tracker.giveUpLine] using h

/-- C1 witness: a direct subscription (id 12) and a delegated one
(nonce 207), both with `max_attempts = 5`, reach `EXHAUSTED` after
exactly 5 attempts with exactly one give-up line naming their
identifier. -/
theorem c1_retry_then_give_up_witness :
    Tracker.runRetryLoop 5 (.direct 12) 5 Tracker.initialAttemptState [] =
      ({ attempts := 5, status := .EXHAUSTED },
       ["Subscription has exceeded the maximum number of attempts: 12"]) ∧
    Tracker.runRetryLoop 5 (.delegated 207) 8 Tracker.initialAttemptState [] =
      ({ attempts := 5, status := .EXHAUSTED },
       ["Subscription has exceeded the maximum number of attempts: 207"]) := by
  constructor
  · have h := c1_retry_then_give_up 5 5 (.direct 12) (by decide) (by decide)
    simpa using h
  · have h := c1_retry_then_give_up 5 8 (.delegated 207) (by decide) (by decide)
    simpa using h

/-- C2: evaluation of `css_mux`'s status-code handling at the failing
inputs.  An OPENAI response with status 400 (invalid input) raises
nothing and falls through to post-processing, instead of raising the
non-retryable `InfernetMLException` the claim requires; an OPENAI 502
and a PERPLEXITYAI 500 (transient 5xx) fall through as well instead of
raising `RetryableException`.  The `case _` branch that raises
`InfernetMLException` matches on the provider, so it is unreachable. -/
theorem c2_css_mux_status_fallthrough :
    CssMux.cssMuxStatusHandling .OPENAI 400 "Bad Request" =
      .returnedPostProcessed ∧
    CssMux.cssMuxStatusHandling .OPENAI 502 "Bad Gateway" =
      .returnedPostProcessed ∧
    CssMux.cssMuxStatusHandling .GOOSEAI 404 "Not Found" =
      .returnedPostProcessed ∧
    CssMux.cssMuxStatusHandling .PERPLEXITYAI 500 "Server Error" =
      .returnedPostProcessed :=
  ⟨rfl, rfl, rfl, rfl⟩

/-- C3 counterexample: the `Subscription` constructor accepts
`frequency = 0` and `redundancy = 0` unchanged — no argument is
rejected, and the resulting object violates
`frequency ≥ 1 ∧ redundancy ≥ 1`. -/
theorem c3_counterexample :
    (ChainUtils.mkSubscription "0xowner" 0 0 0 0 [] false "0x0" 0 "0x0" "0x0").frequency
        = 0 ∧
    ¬ (1 ≤ (ChainUtils.mkSubscription "0xowner" 0 0 0 0 [] false "0x0" 0
          "0x0" "0x0").frequency ∧
       1 ≤ (ChainUtils.mkSubscription "0xowner" 0 0 0 0 [] false "0x0" 0
          "0x0" "0x0").redundancy) := by
  refine ⟨rfl, ?_⟩
  intro h
  exact absurd h.1 (by decide)

/-- C3 amended: the constructor performs no validation — it stores
`frequency` and `redundancy` exactly as passed, for every argument
tuple; hence the invariant `frequency ≥ 1 ∧ redundancy ≥ 1` holds for
the constructed object iff the arguments already satisfy it. -/
theorem c3_constructor_stores_fields (owner : String)
    (active_at period frequency redundancy : Int) (containers : List String)
    (lazy : Bool) (prover : String) (payment_amount : Int)
    (payment_token wallet : String) :
    (ChainUtils.mkSubscription owner active_at period frequency redundancy
        containers lazy prover payment_amount payment_token wallet).frequency
      = frequency ∧
    (ChainUtils.mkSubscription owner active_at period frequency redundancy
        containers lazy prover payment_amount payment_token wallet).redundancy
      = redundancy :=
  ⟨rfl, rfl⟩

/-- C4 counterexample: the containers fingerprint is not injective on
container lists — the distinct lists `["a,b"]` and `["a", "b"]`
comma-join to the same string, so the constructor computes equal
`containers_hash` values for them. -/
theorem c4_counterexample :
    (ChainUtils.mkSubscription "0xowner" 0 0 1 1 ["a,b"] false "0x0" 0
        "0x0" "0x0").containers_hash =
      (ChainUtils.mkSubscription "0xowner" 0 0 1 1 ["a", "b"] false "0x0" 0
        "0x0" "0x0").containers_hash ∧
    (["a,b"] : List String) ≠ ["a", "b"] := by
  exact ⟨rfl, by decide⟩

/-- C4 amended: the fingerprint identifies the comma-joined id string,
not the list — it is injective on nonempty container lists whose ids
contain no comma (under the ideal-hash model of keccak); lists whose ids
contain commas can collide. -/
theorem c4_containers_hash_inj (owner1 : String)
    (aa1 p1 f1 r1 : Int) (cs : List String) (l1 : Bool) (pr1 : String)
    (pay1 : Int) (pt1 w1 owner2 : String) (aa2 p2 f2 r2 : Int)
    (ds : List String) (l2 : Bool) (pr2 : String) (pay2 : Int)
    (pt2 w2 : String)
    (hcs : cs ≠ []) (hds : ds ≠ [])
    (hc : ∀ c ∈ cs, ',' ∉ c.toList) (hd : ∀ c ∈ ds, ',' ∉ c.toList)
    (h : (ChainUtils.mkSubscription owner1 aa1 p1 f1 r1 cs l1 pr1 pay1
            pt1 w1).containers_hash =
         (ChainUtils.mkSubscription owner2 aa2 p2 f2 r2 ds l2 pr2 pay2
            pt2 w2).containers_hash) :
    cs = ds :=
  ChainUtils.containersHash_injOn cs ds hcs hds hc hd h

/-- C4 witness: two comma-free singleton container lists with equal
fingerprints are equal. -/
theorem c4_containers_hash_inj_witness :
    (["svc1"] : List String) = ["svc1"] :=
  c4_containers_hash_inj "0xa" 0 0 1 1 ["svc1"] false "0x0" 0 "0x0" "0x0"
    "0xb" 5 6 7 8 ["svc1"] true "0x1" 9 "0x1" "0x1"
    (by decide) (by decide) (by decide) (by decide) rfl

/-- C5: a `Subscription` is immutable after creation — any sequence of
`serialized` / `get_delegate_subscription_typed_data` calls leaves the
object exactly as constructed, and `serialized` maps each field name to
the value established at construction (with `"containers"` bound to the
containers hash computed by the constructor). -/
theorem c5_subscription_immutable :
    (∀ (ops : List ChainUtils.SubOp) (s : ChainUtils.Subscription),
      ChainUtils.runSubOps ops s = s) ∧
    (∀ (owner : String) (active_at period frequency redundancy : Int)
       (containers : List String) (lazy : Bool) (prover : String)
       (payment_amount : Int) (payment_token wallet : String),
      (ChainUtils.serializedM (ChainUtils.mkSubscription owner active_at period
          frequency redundancy containers lazy prover payment_amount
          payment_token wallet)).1 =
        [("owner", .str owner),
         ("active_at", .int active_at),
         ("period", .int period),
         ("frequency", .int frequency),
         ("redundancy", .int redundancy),
         ("containers", .str (ChainUtils.containersHash containers)),
         ("lazy", .bool lazy),
         ("prover", .str prover),
         ("payment_amount", .int payment_amount),
         ("payment_token", .str payment_token),
         ("wallet", .str wallet)]) := by
  constructor
  · intro ops
    induction ops with
    | nil => intro s; rfl
    | cons op t ih =>
        intro s
        have hop : ChainUtils.applySubOp s op = s := by cases op <;> rfl
        calc ChainUtils.runSubOps (op :: t) s
            = ChainUtils.runSubOps t (ChainUtils.applySubOp s op) := rfl
          _ = ChainUtils.runSubOps t s := by rw [hop]
          _ = s := ih s
  · intro owner active_at period frequency redundancy containers lazy prover
      payment_amount payment_token wallet
    rfl

/-- C6: `file_exists` returns `True` iff the local file exists, its
size equals the transaction data size and the `File-SHA256` tag equals
the local digest; each earlier failing check returns `False` at once,
skipping the later filesystem operations, and no path raises. -/
theorem c6_file_exists_characterization (env : FileManager.FileEnv) :
    ((FileManager.file_exists env).1 = true ↔
      ∃ f, env.localFile = some f ∧ env.txFileSize = f.size ∧
        env.txTags.lookup "File-SHA256" = some f.sha256) ∧
    (env.localFile = none →
      FileManager.file_exists env = (false, [.statExists])) ∧
    (∀ f, env.localFile = some f → env.txFileSize ≠ f.size →
      FileManager.file_exists env = (false, [.statExists, .getSize])) := by
  rcases henv : env.localFile with _ | f
  · refine ⟨by simp [FileManager.file_exists, henv],
      fun _ => by simp [FileManager.file_exists, henv], ?_⟩
    intro f hf
    simp at hf
  · have hfe : FileManager.file_exists env =
        (if env.txFileSize = f.size then
          (decide (env.txTags.lookup "File-SHA256" = some f.sha256),
           [.statExists, .getSize, .computeDigest])
         else (false, [.statExists, .getSize])) := by
      simp [FileManager.file_exists, henv]
    by_cases hsz : env.txFileSize = f.size
    · refine ⟨?_, ?_, ?_⟩
      · rw [hfe, if_pos hsz]
        constructor
        · intro hdec
          exact ⟨f, rfl, hsz, of_decide_eq_true hdec⟩
        · rintro ⟨f2, hf2, _, hlk⟩
          simp only [Option.some.injEq] at hf2
          subst hf2
          exact decide_eq_true hlk
      · intro hnone
        simp at hnone
      · intro f2 hf2 hne
        simp only [Option.some.injEq] at hf2
        subst hf2
        exact absurd hsz hne
    · refine ⟨?_, ?_, ?_⟩
      · rw [hfe, if_neg hsz]
        constructor
        · intro hdec
          exact absurd hdec (by decide)
        · rintro ⟨f2, hf2, hsz2, _⟩
          simp only [Option.some.injEq] at hf2
          subst hf2
          exact (hsz hsz2).elim
      · intro hnone
        simp at hnone
      · intro f2 hf2 _
        simp only [Option.some.injEq] at hf2
        subst hf2
        rw [hfe, if_neg hsz]

/-- C6 witness: a local file whose size and digest match the
transaction record makes `file_exists` return `True`. -/
theorem c6_file_exists_witness :
    (FileManager.file_exists
      { txFileSize := 100,
        txTags := [("File-SHA256", "abc123")],
        localFile := some { size := 100, sha256 := "abc123" } }).1 = true :=
  (c6_file_exists_characterization _).1.mpr
    ⟨{ size := 100, sha256 := "abc123" }, rfl, rfl, rfl⟩

/-- C7: when the direct download failed, the fallback path terminates
for every finite transaction: below `MAX_NODE_BYTES` it performs a
single `tx_data` fetch of the whole body; otherwise the chunk loop
(starting at `offset - size + 1`) accumulates decoded chunk lengths
into `loaded_bytes` and — provided every fetched chunk decodes to a
nonempty byte string — exits with at least `size` bytes written, and
the absolute path of the written file is returned. -/
theorem c7_download_fallback_terminates (maxNodeBytes : Nat) (txOffset : Int)
    (size : Nat) (txData : List Nat) (chunks : Int → List Nat)
    (pathname : String) (h : ∀ o, chunks o ≠ []) :
    ∃ r : FileManager.DownloadResult,
      FileManager.downloadFallback maxNodeBytes txOffset size txData chunks
        pathname = some r ∧
      r.returnedPath = FileManager.abspath pathname ∧
      (size < maxNodeBytes → r.written = txData ∧ r.txDataFetches = 1) ∧
      (¬ size < maxNodeBytes → size ≤ r.written.length ∧ r.txDataFetches = 0) := by
  by_cases hsz : size < maxNodeBytes
  · refine ⟨⟨txData, 1, FileManager.abspath pathname⟩, ?_, rfl,
      fun _ => ⟨rfl, rfl⟩, fun hc => absurd hsz hc⟩
    simp [FileManager.downloadFallback, hsz]
  · obtain ⟨⟨acc, l2⟩, hp, hps, hplen⟩ :=
      FileManager.chunkLoop_spec chunks (txOffset - (size : Int) + 1) size h
        size 0 [] (by omega)
    refine ⟨⟨acc, 0, FileManager.abspath pathname⟩, ?_, rfl,
      fun hc => absurd hc hsz, fun _ => ⟨?_, rfl⟩⟩
    · simp [FileManager.downloadFallback, hsz, hp]
    · show size ≤ acc.length
      simp only [List.length_nil] at hplen
      omega

/-- C7 witness: with `MAX_NODE_BYTES = 0` (forcing the chunk path),
size 3 and a peer that serves two-byte chunks, the fallback terminates
with 4 ≥ 3 bytes written; the second conjunct evaluates the model on
that input outright. -/
theorem c7_download_fallback_witness :
    (∃ r : FileManager.DownloadResult,
      FileManager.downloadFallback 0 9 3 [] (fun _ => [7, 7])
        "model.bin" = some r ∧
      r.returnedPath = FileManager.abspath "model.bin" ∧
      ((3 : Nat) < 0 → r.written = [] ∧ r.txDataFetches = 1) ∧
      (¬ (3 : Nat) < 0 → 3 ≤ r.written.length ∧ r.txDataFetches = 0)) ∧
    FileManager.downloadFallback 0 9 3 [] (fun _ => [7, 7]) "model.bin" =
      some { written := [7, 7, 7, 7], txDataFetches := 0,
             returnedPath := "model.bin" } :=
  ⟨c7_download_fallback_terminates 0 9 3 [] (fun _ => [7, 7]) "model.bin"
      (fun o => by simp), rfl⟩

/-- C8 counterexample: `get_config` is not free of hidden state — the
shallow `base_config.copy()` shares the containers list, so the second
of two identical calls with one service returns two container entries,
differs from the first call's result, and the module-level
`base_config` state has changed. -/
theorem c8_counterexample :
    ConfigCreator.secondCall.1.containers.length = 2 ∧
    ConfigCreator.secondCall.1 ≠ ConfigCreator.firstCall.1 ∧
    ConfigCreator.firstCall.2 ≠ ConfigCreator.baseConfigInit := by
  refine ⟨rfl, ?_, ?_⟩
  · intro h
    have := congrArg (fun c => c.containers.length) h
    simp [ConfigCreator.secondCall, ConfigCreator.firstCall,
      ConfigCreator.get_config, ConfigCreator.baseConfigInit] at this
  · intro h
    have := congrArg (fun c => c.containers.length) h
    simp [ConfigCreator.firstCall, ConfigCreator.get_config,
      ConfigCreator.baseConfigInit] at this

/-- C8 amended: `get_config` shares state with the module-level
`base_config` through its shallow copy — each call appends one entry
per given service (in order) to the shared containers list, so the
returned list is the previous shared list extended by the services, and
the `base_config` state after the call equals the returned
containers/chain (exactly one entry per service holds only when the
shared list starts empty, e.g. on the first call). -/
theorem c8_get_config_appends (st : ConfigCreator.SharedState)
    (services : List ConfigCreator.ServiceConfig) (pk ca pa rpc : String) :
    (ConfigCreator.get_config st services pk ca pa rpc).1.containers =
      st.containers ++ services.map ConfigCreator.mkContainer ∧
    (ConfigCreator.get_config st services pk ca pa rpc).2.containers =
      (ConfigCreator.get_config st services pk ca pa rpc).1.containers ∧
    (ConfigCreator.get_config st services pk ca pa rpc).2.chain =
      (ConfigCreator.get_config st services pk ca pa rpc).1.chain :=
  ⟨rfl, rfl, rfl⟩

/-- C9 counterexample: `validate` accepts a PERPLEXITYAI request with
embedding params (provider supported, key present, endpoint
"completions" supported), yet `get_request_configuration` raises,
because `ppl_ai_helper` rejects embedding params. -/
theorem c9_counterexample :
    CssMux.validate
      { provider := .PERPLEXITYAI, endpoint := "completions",
        model := "mistral-7b", api_keys := [(.PERPLEXITYAI, some "key")],
        params := .embedding "hello" } = .ok () ∧
    CssMux.isOkB (CssMux.get_request_configuration
      { provider := .PERPLEXITYAI, endpoint := "completions",
        model := "mistral-7b", api_keys := [(.PERPLEXITYAI, some "key")],
        params := .embedding "hello" } []) = false :=
  ⟨rfl, rfl⟩

/-- C9 amended: when `validate` returns without raising, the API-key
and endpoint-table lookups inside `get_request_configuration` are
guaranteed to succeed, and `get_request_configuration` returns a
`(url, headers, body)` triple without raising exactly when the
provider's input function accepts the request's params (always for
OPENAI; completion params for PERPLEXITYAI; a single completion
message for GOOSEAI). -/
theorem c9_validate_partial_safety (req : CssMux.CSSRequest)
    (extra : List (String × CssMux.BodyVal))
    (hv : CssMux.validate req = .ok ()) :
    (req.api_keys.lookup req.provider).isSome = true ∧
    ((CssMux.endpointsOf req.provider).lookup req.endpoint).isSome = true ∧
    CssMux.isOkB (CssMux.get_request_configuration req extra) =
      CssMux.inputAccepts req.provider req.params := by
  have hps : CssMux.providerSupported req.provider = true := by
    cases req.provider <;> rfl
  rw [CssMux.validate] at hv
  simp only [hps, not_true, if_false, Bool.true_eq_false, ite_false] at hv
  rcases hak : CssMux.apiKeysGet req.api_keys req.provider with _ | k <;>
    rw [hak] at hv
  · cases hv
  · rcases hep : (CssMux.endpointsOf req.provider).lookup req.endpoint
      with _ | re <;> rw [hep] at hv
    · cases hv
    · have hlk : ∃ v, req.api_keys.lookup req.provider = some v := by
        rw [CssMux.apiKeysGet] at hak
        rcases hl : req.api_keys.lookup req.provider with _ | v
        · rw [hl] at hak; cases hak
        · exact ⟨v, rfl⟩
      obtain ⟨v, hlk⟩ := hlk
      refine ⟨by rw [hlk]; rfl, by rfl, ?_⟩
      rw [← CssMux.cssInputFunc_isOk req.provider req]
      rcases hif : CssMux.inputFunc req.provider req with e | pr
      · simp [CssMux.get_request_configuration, hlk, hep, hif, CssMux.isOkB]
      · obtain ⟨u, pi⟩ := pr
        simp [CssMux.get_request_configuration, hlk, hep, hif, CssMux.isOkB]

/-- C9 witness: an OPENAI completion request that `validate` accepts,
on which `get_request_configuration` indeed returns without raising. -/
theorem c9_validate_partial_safety_witness :
    CssMux.isOkB (CssMux.get_request_configuration
      { provider := .OPENAI, endpoint := "completions", model := "gpt-4",
        api_keys := [(.OPENAI, some "sk-test")],
        params := .completion [{ role := "user", content := "hi" }] } []) =
      true :=
  (c9_validate_partial_safety
    { provider := .OPENAI, endpoint := "completions", model := "gpt-4",
      api_keys := [(.OPENAI, some "sk-test")],
      params := .completion [{ role := "user", content := "hi" }] } []
    rfl).2.2.trans rfl

/-- C10: for every GOOSEAI request, `goose_ai_helper` returns a body
whose `prompt` is the sole message's content and a URL containing the
model name exactly when the completion messages list has length 1; any
other message count, and embedding params, raise
`InfernetMLException`. -/
theorem c10_goose_ai_helper (req : CssMux.CSSRequest) :
    (∀ m, req.params = .completion [m] →
      CssMux.goose_ai_helper req =
        .ok ("https://api.goose.ai/v1/engines/" ++ req.model ++ "/",
          [("prompt", .s m.content)])) ∧
    (∀ msgs, req.params = .completion msgs → msgs.length ≠ 1 →
      CssMux.goose_ai_helper req =
        .error (.infernetML
          "GOOSE AI API only accepts one message from role user!")) ∧
    (∀ inp, req.params = .embedding inp →
      CssMux.goose_ai_helper req =
        .error (.infernetML "Unsupported request")) := by
  refine ⟨?_, ?_, ?_⟩
  · intro m hm
    simp [CssMux.goose_ai_helper, hm]
  · intro msgs hm hlen
    simp [CssMux.goose_ai_helper, hm, hlen]
  · intro inp hm
    simp [CssMux.goose_ai_helper, hm]

/-- C10 witness: a single user message yields the engines URL for the
model and a `prompt` body; an empty message list and embedding params
raise `InfernetMLException`. -/
theorem c10_goose_ai_helper_witness :
    CssMux.goose_ai_helper
      { provider := .GOOSEAI, endpoint := "completions", model := "gpt-neo-20b",
        api_keys := [], params := .completion [{ role := "user", content := "hi" }] } =
      .ok ("https://api.goose.ai/v1/engines/" ++ "gpt-neo-20b" ++ "/",
        [("prompt", .s "hi")]) ∧
    CssMux.goose_ai_helper
      { provider := .GOOSEAI, endpoint := "completions", model := "gpt-neo-20b",
        api_keys := [], params := .completion [] } =
      .error (.infernetML
        "GOOSE AI API only accepts one message from role user!") ∧
    CssMux.goose_ai_helper
      { provider := .GOOSEAI, endpoint := "completions", model := "gpt-neo-20b",
        api_keys := [], params := .embedding "vec" } =
      .error (.infernetML "Unsupported request") :=
  ⟨(c10_goose_ai_helper _).1 { role := "user", content := "hi" } rfl,
   (c10_goose_ai_helper _).2.1 [] rfl (by decide),
   (c10_goose_ai_helper _).2.2 "vec" rfl⟩
